import Mathlib

/-!
Verification of the chunked/streaming file-upload pipeline of the
`pca_frontend` repository (`src/lib/api.ts` and the upload handler of
`src/app/rag-summary/page.tsx`).

The TypeScript source is shallowly embedded as executable Lean
definitions: file contents are lists of byte values (`List Nat`), the
SHA-256 primitive of the Web Crypto API is a parameter `H : Bytes → Bytes`
(both hashing strategies call the same primitive, so every claim about
them is relative to it), fetch responses are explicit records, and the
polling loops are fuel-bounded recursions whose fuel mirrors the
source's attempt bounds.  Observable effects (progress callbacks,
`window.dispatchEvent` of the `unauthorized` event, status fetches)
are returned as explicit data so theorems can count them.
-/

/-- Byte sequences; each entry is a byte value (0-255 in the source,
`Uint8Array` entries). -/
abbrev Bytes := List Nat

/-- `const CHUNK_SIZE = 1024 * 1024` from `api.ts`. -/
def CHUNK_SIZE : Nat := 1024 * 1024

/-- `const LARGE_FILE_THRESHOLD = 10 * 1024 * 1024` from `api.ts`. -/
def LARGE_FILE_THRESHOLD : Nat := 10 * 1024 * 1024

/-- Lower-case hex digit, as produced by Javascript `toString(16)`. -/
def hexChar (n : Nat) : Char :=
  if n < 10 then Char.ofNat (48 + n) else Char.ofNat (87 + n)

/-- `b.toString(16).padStart(2, '0')` for a byte `b < 256`: always two
hex characters, zero-padded. -/
def byteToHex (b : Nat) : List Char :=
  if b < 16 then [hexChar 0, hexChar b] else [hexChar (b / 16), hexChar (b % 16)]

/-- `hashArray.map(b => b.toString(16).padStart(2, '0')).join('')`. -/
def bytesToHex (bs : Bytes) : String :=
  String.mk (bs.map byteToHex).flatten

/-- `computeFileHash` (`api.ts` 237-242): read the whole file into one
buffer, digest it, hex-encode the digest.  `H` is the SHA-256 primitive
(`crypto.subtle.digest`), shared with the streaming strategy. -/
def computeFileHash (H : Bytes → Bytes) (fileBytes : Bytes) : String :=
  bytesToHex (H fileBytes)

/-- `combined.set(chunk, offset)` (`api.ts` 263): overwrite `buf` at
`off` with `chunk`. -/
def writeAt (buf : Bytes) (off : Nat) (chunk : Bytes) : Bytes :=
  buf.take off ++ chunk ++ buf.drop (off + chunk.length)

/-- The copy loop of `computeFileHashStreaming` (`api.ts` 261-265):
copy each chunk into the combined buffer at the running offset. -/
def combineLoop : List Bytes → Bytes → Nat → Bytes
  | [], buf, _ => buf
  | c :: cs, buf, off => combineLoop cs (writeAt buf off c) (off + c.length)

/-- `chunks.reduce((acc, chunk) => acc + chunk.length, 0)` (`api.ts` 260). -/
def totalLen (chunks : List Bytes) : Nat :=
  chunks.foldl (fun acc c => acc + c.length) 0

/-- The combined whole-file buffer built by `computeFileHashStreaming`
(`api.ts` 260-265): a fresh zero buffer of the full file length, filled
chunk by chunk. -/
def combineChunks (chunks : List Bytes) : Bytes :=
  combineLoop chunks (List.replicate (totalLen chunks) 0) 0

/-- `computeFileHashStreaming` (`api.ts` 247-270): the stream reader
yields `chunks`; they are combined into one buffer which is digested in
a single call and hex-encoded. -/
def computeFileHashStreaming (H : Bytes → Bytes) (chunks : List Bytes) : String :=
  bytesToHex (H (combineChunks chunks))

/-! String literals appearing in the source. -/

def msgComputingFingerprint : String := "Computing file fingerprint..."
def msgHashComputedLead : String := "Hash computed: "
def msgEllipsis : String := "..."
def msgUploadingFile : String := "Uploading file..."
def msgDuplicateDetected : String := "File already uploaded (duplicate detected)"
def msgProcessingOnServer : String := "Processing file on server..."
def msgStatusCheckFailed : String := "Failed to check job status"
def msgProcessingFailed : String := "Processing failed"
def msgTimedOut : String := "Upload timed out"
def msgUploadFailedColon : String := "Upload failed: "
def msgUploadFailedPlain : String := "Upload failed"
def msgLostConnection : String := "Lost connection to server while polling status."
def msgStillProcessing : String := "Processing is taking longer than expected. Please check back later."
def msgProcessingComplete : String := "Processing complete!"
def msgGenericError : String := "An error occurred"
def msgImportedLead : String := "Successfully imported "
def msgRowsTail : String := " rows"
def strUndefined : String := "undefined"
def strCompleted : String := "completed"
def strFailed : String := "failed"
def strDuplicate : String := "duplicate"
def strAccepted : String := "accepted"
def csrfTokenValue : String := "v2-token-generation-pca"
def bearerLead : String := "Bearer "

/-- Javascript `x || fallback` for a string already known to be a
string: the empty string is falsy. -/
def orElseStr (s fallback : String) : String :=
  if s = "" then fallback else s

/-- Javascript `x || fallback` for a possibly-absent string field. -/
def orElseOptStr (o : Option String) (fallback : String) : String :=
  match o with
  | some s => orElseStr s fallback
  | none => fallback

/-- Javascript truthiness of a nullable string (`if (token)`,
`if (sheetName)`): present and non-empty. -/
def truthyOpt (o : Option String) : Option String :=
  match o with
  | some s => if s = "" then none else some s
  | none => none

/-- Javascript truthiness of a nullable string as a Bool
(`uploadResult.job_id` in a condition). -/
def jobIdTruthy (o : Option String) : Bool :=
  match o with
  | some s => decide (s ≠ "")
  | none => false

/-- Template interpolation of a possibly-undefined numeric field. -/
def optNatStr (o : Option Nat) : String :=
  match o with
  | some n => toString n
  | none => strUndefined

/-- `Bearer ${token}`. -/
def mkBearer (t : String) : String := bearerLead ++ t

/-- `Math.round(q * 100)` for a server-reported fractional progress
value `q` (a finite Javascript number, hence a rational).  Javascript
rounds half up, so this is `floor (100 * q + 1/2)`, computed on the raw
numerator and denominator: `floor ((200 * num + den) / (2 * den))`. -/
def roundTimes100 (q : Rat) : Int := Int.fdiv (200 * q.num + q.den) (2 * q.den)

/-- Progress phases of `UploadProgress` (`api.ts` 272-278). -/
inductive Phase where
  | hashing
  | uploading
  | processing
  | complete
  | error
deriving DecidableEq

/-- One `UploadProgress` snapshot handed to `onProgress`. -/
structure ProgressEvent where
  phase : Phase
  progress : Int
  message : String
  jobId : Option String := none
  errMsg : Option String := none
deriving DecidableEq

/-- Status tag of `StreamUploadResult` (`api.ts` 280-287). -/
inductive ResultStatus where
  | accepted
  | duplicate
  | error
deriving DecidableEq

/-- `StreamUploadResult` (`api.ts` 280-287). -/
structure StreamUploadResult where
  status : ResultStatus
  jobId : Option String := none
  fileHash : Option String := none
  message : String
  originalUpload : Option String := none
deriving DecidableEq

/-- The parsed JSON of the immediate `/upload/stream` response plus its
HTTP metadata, as read by `uploadFileWithProgress` (`api.ts` 335-348)
and the page-level `handleUpload`.  `detail` is the best-effort error
body (or the status text when parsing fails). -/
structure UploadResponse where
  ok : Bool
  httpStatus : Nat
  status : String
  job_id : Option String
  file_hash : Option String
  message : String
  original_upload : Option String
  success : Bool
  imported_count : Option Nat
  detail : Option String
deriving DecidableEq

/-- The parsed JSON of one `/upload/status/{jobId}` response plus its
HTTP `ok` flag (`api.ts` 381-417, page 612-660). -/
structure StatusResponse where
  ok : Bool
  status : String
  progress : Rat
  message : String
  row_count : Option Nat
  file_hash : Option String
  summary : Option String
  schema : Option String
  preview : Option String
  error : Option String
deriving DecidableEq

/-- The multipart request built for the upload submission: which fields
and headers were attached (`api.ts` 326-341 and 186-202). -/
structure UploadRequest where
  hasFile : Bool
  sheetField : Option String
  authHeader : Option String
  csrfHeader : Option String
deriving DecidableEq

/-- Result of the inner polling loop: the outcome (a thrown message or
a returned result), all progress events emitted so far, and the number
of status fetches performed. -/
structure PollOut where
  outcome : Except String StreamUploadResult
  events : List ProgressEvent
  fetches : Nat

/-- The error-phase progress event emitted by the top-level catch
(`api.ts` 424-431). -/
def mkErrorEvent (m : String) : ProgressEvent :=
  { phase := Phase.error, progress := 0,
    message := msgUploadFailedColon ++ m, errMsg := some m }

/-- `const maxAttempts = 60` (`api.ts` 376). -/
def maxAttemptsBase : Nat := 60

/-- The polling loop of `uploadFileWithProgress` (`api.ts` 378-420).
`oracle i` is the response to the `i`-th status fetch; the fuel mirrors
`while (attempts < maxAttempts)`. -/
def pollLoopAux (oracle : Nat → StatusResponse) (jobId : Option String) :
    Nat → Nat → List ProgressEvent → PollOut
  | 0, fetches, evs =>
    { outcome := Except.error msgTimedOut, events := evs, fetches := fetches }
  | fuel + 1, fetches, evs =>
    let st := oracle fetches
    if st.ok = false then
      { outcome := Except.error msgStatusCheckFailed, events := evs,
        fetches := fetches + 1 }
    else
      let pev : ProgressEvent :=
        { phase := Phase.processing, progress := roundTimes100 st.progress,
          message := st.message, jobId := jobId }
      if st.status = strCompleted then
        let okResult : StreamUploadResult :=
          { status := ResultStatus.accepted, jobId := jobId,
            fileHash := st.file_hash, message := st.message }
        let cev : ProgressEvent :=
          { phase := Phase.complete, progress := 100,
            message := msgImportedLead ++ optNatStr st.row_count ++ msgRowsTail,
            jobId := jobId }
        { outcome := Except.ok okResult,
          events := (evs ++ [pev]) ++ [cev],
          fetches := fetches + 1 }
      else if st.status = strFailed then
        { outcome := Except.error (orElseOptStr st.error msgProcessingFailed),
          events := evs ++ [pev], fetches := fetches + 1 }
      else
        pollLoopAux oracle jobId fuel (fetches + 1) (evs ++ [pev])

/-- Caller-side environment of one `uploadFileWithProgress` call: the
file (size, contents, and the chunk decomposition its stream yields),
the optional sheet name, the `localStorage` token, and the immediate
`/upload/stream` response. -/
structure UploadEnv where
  fileSize : Nat
  fileBytes : Bytes
  chunks : List Bytes
  sheetName : Option String
  token : Option String
  resp : UploadResponse

/-- Full observable outcome of one `uploadFileWithProgress` call. -/
structure UploadRun where
  result : StreamUploadResult
  events : List ProgressEvent
  request : UploadRequest
  fileHash : String
  statusFetches : Nat
  unauthorizedDispatches : Nat

/-- `uploadFileWithProgress` (`api.ts` 292-437): hash, submit, classify
the immediate response, poll to completion; every thrown failure is
caught at top level and converted into an error event plus an
`{status: error}` result.  Note: this function dispatches no
`unauthorized` event and attaches no CSRF header (unlike `request` and
`uploadCampaigns`). -/
def uploadFileWithProgress (H : Bytes → Bytes) (env : UploadEnv)
    (oracle : Nat → StatusResponse) : UploadRun :=
  let fileHash :=
    if env.fileSize > LARGE_FILE_THRESHOLD then computeFileHashStreaming H env.chunks
    else computeFileHash H env.fileBytes
  let ev1 : ProgressEvent :=
    { phase := Phase.hashing, progress := 0, message := msgComputingFingerprint }
  let ev2 : ProgressEvent :=
    { phase := Phase.hashing, progress := 100,
      message := msgHashComputedLead ++ fileHash.take 8 ++ msgEllipsis }
  let ev3 : ProgressEvent :=
    { phase := Phase.uploading, progress := 0, message := msgUploadingFile }
  let req : UploadRequest :=
    { hasFile := true, sheetField := truthyOpt env.sheetName,
      authHeader := (truthyOpt env.token).map mkBearer, csrfHeader := none }
  let evs0 := [ev1, ev2, ev3]
  if env.resp.ok = false then
    let m := orElseOptStr env.resp.detail
      (msgUploadFailedColon ++ toString env.resp.httpStatus)
    { result := { status := ResultStatus.error, message := m },
      events := evs0 ++ [mkErrorEvent m], request := req, fileHash := fileHash,
      statusFetches := 0, unauthorizedDispatches := 0 }
  else if env.resp.status = strDuplicate then
    let dupResult : StreamUploadResult :=
      { status := ResultStatus.duplicate,
        fileHash := env.resp.file_hash, message := env.resp.message,
        originalUpload := env.resp.original_upload }
    { result := dupResult,
      events := evs0 ++
        [{ phase := Phase.complete, progress := 100, message := msgDuplicateDetected }],
      request := req, fileHash := fileHash,
      statusFetches := 0, unauthorizedDispatches := 0 }
  else
    let ev4 : ProgressEvent :=
      { phase := Phase.processing, progress := 50,
        message := msgProcessingOnServer, jobId := env.resp.job_id }
    let po := pollLoopAux oracle env.resp.job_id maxAttemptsBase 0 (evs0 ++ [ev4])
    match po.outcome with
    | Except.ok r =>
      { result := r, events := po.events, request := req, fileHash := fileHash,
        statusFetches := po.fetches, unauthorizedDispatches := 0 }
    | Except.error m =>
      { result := { status := ResultStatus.error, message := m },
        events := po.events ++ [mkErrorEvent m], request := req,
        fileHash := fileHash, statusFetches := po.fetches,
        unauthorizedDispatches := 0 }

/-- `checkDuplicate` (`api.ts` 442-453): compute the size-selected hash
locally; no fetch appears in the body, and `isDuplicate` is the literal
`false`. -/
structure CheckDuplicateOut where
  isDuplicate : Bool
  hash : String
  fetches : Nat
deriving DecidableEq

def checkDuplicate (H : Bytes → Bytes) (fileSize : Nat) (fileBytes : Bytes)
    (chunks : List Bytes) : CheckDuplicateOut :=
  let hash :=
    if fileSize > LARGE_FILE_THRESHOLD then computeFileHashStreaming H chunks
    else computeFileHash H fileBytes
  { isDuplicate := false, hash := hash, fetches := 0 }

/-- The request built by `uploadCampaigns` (`api.ts` 186-202): file
field, `Authorization` when a token is stored, and always the static
CSRF header. -/
def uploadCampaignsRequest (token : Option String) : UploadRequest :=
  { hasFile := true, sheetField := none,
    authHeader := (truthyOpt token).map mkBearer,
    csrfHeader := some csrfTokenValue }

/-- Parsed error body of a failed `request` response (`api.ts` 71-77);
`none` models a JSON parse failure. -/
structure HttpErrorBody where
  detail : Option String
  message : Option String
deriving DecidableEq

/-- A response as seen by the shared `request` helper. -/
structure HttpResponse where
  ok : Bool
  httpStatus : Nat
  body : Option HttpErrorBody
deriving DecidableEq

/-- The `ApiError` thrown by `request`. -/
structure ApiErrorModel where
  status : Nat
  message : String
deriving DecidableEq

/-- Observable outcome of the shared `request` helper: how many
`unauthorized` events were dispatched, and the thrown error if any. -/
structure RequestOut where
  unauthorizedDispatches : Nat
  outcome : Except ApiErrorModel Unit

/-- The shared `request` helper (`api.ts` 37-97), restricted to its
response handling: a non-OK response dispatches `unauthorized` exactly
when the status is 401 and throws an `ApiError` with the best-effort
detail message. -/
def request (resp : HttpResponse) : RequestOut :=
  if resp.ok = false then
    let d := if resp.httpStatus = 401 then 1 else 0
    let m := match resp.body with
      | some b => orElseOptStr b.detail (orElseOptStr b.message msgGenericError)
      | none => msgGenericError
    { unauthorizedDispatches := d,
      outcome := Except.error { status := resp.httpStatus, message := m } }
  else
    { unauthorizedDispatches := 0, outcome := Except.ok () }

/-! Page-level upload handler and poller (`src/app/rag-summary/page.tsx`). -/

inductive PageStatusType where
  | default
  | success
  | error
  | warning
deriving DecidableEq

/-- A `setStatus` payload of the rag-summary page. -/
structure PageStatus where
  type : PageStatusType
  message : String
deriving DecidableEq

/-- The `setResult` payload built by `pollUploadStatus` on completion
(page 627-634). -/
structure PageResult where
  success : Bool
  imported_count : Nat
  message : String
  summary : Option String
  schema : Option String
  preview : Option String
deriving DecidableEq

/-- Observable outcome of `pollUploadStatus`: whether the promise
resolved (vs rejected), the final status banner, the result set on
completion, and the number of status fetches. -/
structure PagePollOut where
  resolved : Bool
  finalStatus : PageStatus
  result : Option PageResult
  fetches : Nat
deriving DecidableEq

/-- `const maxAttempts = 120` (page 601). -/
def maxAttemptsPage : Nat := 120

/-- Page progress banner `Processing... X%`. -/
def msgProcessingPct (p : Rat) : String :=
  "Processing... " ++ toString (roundTimes100 p) ++ "%"

/-- One `checkStatus` invocation of `pollUploadStatus` (page 604-670);
`attempts0` counts prior invocations, `oracle attempts0` is the fetch
response, and the fuel bounds the recursion (never exhausted from the
real entry point). -/
def pollUploadStatusAux (oracle : Nat → StatusResponse) :
    Nat → Nat → PagePollOut
  | 0, attempts0 =>
    { resolved := false,
      finalStatus := { type := PageStatusType.error, message := msgLostConnection },
      result := none, fetches := attempts0 }
  | fuel + 1, attempts0 =>
    let attempts := attempts0 + 1
    let st := oracle attempts0
    if st.ok = false then
      { resolved := false,
        finalStatus := { type := PageStatusType.error, message := msgLostConnection },
        result := none, fetches := attempts }
    else if st.status = strCompleted then
      let okStatus : PageStatus :=
        { type := PageStatusType.success,
          message := orElseStr st.message msgProcessingComplete }
      let okResult : PageResult :=
        { success := true, imported_count := Option.getD st.row_count 0,
          message := st.message, summary := st.summary,
          schema := st.schema, preview := st.preview }
      { resolved := true, finalStatus := okStatus,
        result := some okResult, fetches := attempts }
    else if st.status = strFailed then
      let failStatus : PageStatus :=
        { type := PageStatusType.error,
          message := orElseOptStr st.error msgProcessingFailed }
      { resolved := false, finalStatus := failStatus,
        result := none, fetches := attempts }
    else if maxAttemptsPage ≤ attempts then
      { resolved := true,
        finalStatus := { type := PageStatusType.warning, message := msgStillProcessing },
        result := none, fetches := attempts }
    else
      pollUploadStatusAux oracle fuel attempts

/-- `pollUploadStatus(jobId)` (page 599-672). -/
def pollUploadStatus (oracle : Nat → StatusResponse) : PagePollOut :=
  pollUploadStatusAux oracle maxAttemptsPage 0

/-- Immediate-response classification of the page-level `handleUpload`
(page 567-597). -/
inductive PageUploadOutcome where
  | syncSuccess (importedCount : Option Nat)
  | startedPolling (jobId : Option String)
  | errorOutcome (message : String)
deriving DecidableEq

structure HandleUploadOut where
  outcome : PageUploadOutcome
  unauthorizedDispatches : Nat
deriving DecidableEq

/-- `handleUpload` response handling (page 558-590): non-OK dispatches
`unauthorized` on 401 and throws the detail; `success` is checked
first, then `accepted` with a truthy `job_id`, else the message is
thrown. -/
def handleUpload (resp : UploadResponse) : HandleUploadOut :=
  if resp.ok = false then
    { outcome := PageUploadOutcome.errorOutcome
        (orElseOptStr resp.detail msgUploadFailedPlain),
      unauthorizedDispatches := if resp.httpStatus = 401 then 1 else 0 }
  else if resp.success then
    { outcome := PageUploadOutcome.syncSuccess resp.imported_count,
      unauthorizedDispatches := 0 }
  else if resp.status = strAccepted ∧ jobIdTruthy resp.job_id = true then
    { outcome := PageUploadOutcome.startedPolling resp.job_id,
      unauthorizedDispatches := 0 }
  else
    { outcome := PageUploadOutcome.errorOutcome
        (orElseStr resp.message msgUploadFailedPlain),
      unauthorizedDispatches := 0 }

/-- The transport outcomes named by the specification, section 4.2. -/
inductive SpecOutcome where
  | duplicate
  | accepted
  | syncSuccess
  | transportError
deriving DecidableEq

/-- Modelled from the spec: the response-classification rules of
section 4.2, in the spec's order (duplicate, then accepted-with-job-id,
then synchronous success, else transport error).  This definition
follows the spec's words and exists only to be compared with the
behaviour of the source functions. -/
def specClassify (resp : UploadResponse) : SpecOutcome :=
  if resp.status = strDuplicate then SpecOutcome.duplicate
  else if resp.status = strAccepted ∧ resp.job_id ≠ none then SpecOutcome.accepted
  else if resp.success then SpecOutcome.syncSuccess
  else SpecOutcome.transportError

/-! Within-phase monotonicity of progress events (spec section 3). -/

/-- Two consecutive events with the same phase must have non-decreasing
progress. -/
def phaseMonoRel (a b : ProgressEvent) : Prop :=
  a.phase = b.phase → a.progress ≤ b.progress

instance : DecidableRel phaseMonoRel := fun a b =>
  inferInstanceAs (Decidable (a.phase = b.phase → a.progress ≤ b.progress))

/-- Progress is monotonically non-decreasing within a phase along the
emitted event sequence. -/
def PhaseMono (evs : List ProgressEvent) : Prop :=
  List.Chain' phaseMonoRel evs

instance decPhaseMono : ∀ evs : List ProgressEvent, Decidable (PhaseMono evs)
  | [] => isTrue (by constructor)
  | [a] => isTrue (List.chain'_singleton a)
  | a :: b :: l =>
    haveI := decPhaseMono (b :: l)
    decidable_of_iff (phaseMonoRel a b ∧ PhaseMono (b :: l))
      (List.chain'_cons).symm

/-! Concrete fixtures used by witnesses and counterexamples. -/

/-- A stand-in digest primitive returning a fixed 32-byte digest. -/
def constHash32 : Bytes → Bytes := fun _ => List.replicate 32 0

/-- A stand-in digest primitive with an empty digest (keeps concrete
runs small). -/
def emptyHash : Bytes → Bytes := fun _ => []

def respAccepted : UploadResponse :=
  { ok := true, httpStatus := 200, status := "accepted",
    job_id := some "job-1", file_hash := none, message := "queued",
    original_upload := none, success := false, imported_count := none,
    detail := none }

def resp401 : UploadResponse :=
  { ok := false, httpStatus := 401, status := "", job_id := none,
    file_hash := none, message := "", original_upload := none,
    success := false, imported_count := none,
    detail := some "Unauthorized" }

def respSync : UploadResponse :=
  { ok := true, httpStatus := 200, status := "", job_id := none,
    file_hash := none, message := "", original_upload := none,
    success := true, imported_count := some 5, detail := none }

def respDuplicate : UploadResponse :=
  { ok := true, httpStatus := 200, status := "duplicate",
    job_id := none, file_hash := some "abc123", message := "Already uploaded",
    original_upload := some "orig.csv", success := false,
    imported_count := none, detail := none }

/-- A small three-byte file split into two stream chunks. -/
def mkEnv (resp : UploadResponse) : UploadEnv :=
  { fileSize := 3, fileBytes := [1, 2, 3], chunks := [[1], [2, 3]],
    sheetName := none, token := none, resp := resp }

/-- Same file submitted with a sheet name and a stored token. -/
def envWithSheetAndToken : UploadEnv :=
  { fileSize := 3, fileBytes := [1, 2, 3], chunks := [[1], [2, 3]],
    sheetName := some "Sheet1", token := some "tok", resp := respAccepted }

def stRunning : StatusResponse :=
  { ok := true, status := "running", progress := Rat.mk' 1 2,
    message := "Working", row_count := none, file_hash := none,
    summary := none, schema := none, preview := none, error := none }

def stLowProgress : StatusResponse :=
  { ok := true, status := "running", progress := Rat.mk' 1 10,
    message := "Starting", row_count := none, file_hash := none,
    summary := none, schema := none, preview := none, error := none }

def stCompleted42 : StatusResponse :=
  { ok := true, status := "completed", progress := 1,
    message := "done", row_count := some 42, file_hash := some "h",
    summary := some "A", schema := some "S", preview := some "P",
    error := none }

/-- Identical to `stCompleted42` except for the terminal payload fields
`row_count` and `summary`. -/
def stCompleted99 : StatusResponse :=
  { ok := true, status := "completed", progress := 1,
    message := "done", row_count := some 99, file_hash := some "h",
    summary := some "B", schema := some "S", preview := some "P",
    error := none }

def stNotOk : StatusResponse :=
  { ok := false, status := "", progress := 0, message := "",
    row_count := none, file_hash := none, summary := none,
    schema := none, preview := none, error := none }

def oracleNeverDone : Nat → StatusResponse := fun _ => stRunning

def oracleDone42 : Nat → StatusResponse := fun _ => stCompleted42

def oracleDone99 : Nat → StatusResponse := fun _ => stCompleted99

def oracleNotOk : Nat → StatusResponse := fun _ => stNotOk

/-- Server reports 10% on the first poll (after the fixed 50% progress
event), then completes. -/
def oracleDip : Nat → StatusResponse :=
  fun i => if i = 0 then stLowProgress else stCompleted42

/-- An 11 MiB file delivered in eleven 1 MiB chunks. -/
def chunks9 : List Bytes := List.replicate 11 (List.replicate CHUNK_SIZE 0)

def httpResp401 : HttpResponse :=
  { ok := false, httpStatus := 401,
    body := some { detail := some "Session expired", message := none } }

/-- The four progress events `uploadFileWithProgress` has emitted by
the time polling starts (hashing 0, hashing 100, uploading 0,
processing 50); named here only so that lemmas about the polling loop
can refer to the loop's initial event accumulator. -/
def preludeEvents (H : Bytes → Bytes) (env : UploadEnv) : List ProgressEvent :=
  [{ phase := Phase.hashing, progress := 0, message := msgComputingFingerprint },
   { phase := Phase.hashing, progress := 100,
     message := msgHashComputedLead ++
       (if env.fileSize > LARGE_FILE_THRESHOLD then
         computeFileHashStreaming H env.chunks
       else computeFileHash H env.fileBytes).take 8 ++ msgEllipsis },
   { phase := Phase.uploading, progress := 0, message := msgUploadingFile }] ++
  [{ phase := Phase.processing, progress := 50,
     message := msgProcessingOnServer, jobId := env.resp.job_id }]

/-! Helper lemmas about the hashing embedding. -/

theorem length_byteToHex (b : Nat) : (byteToHex b).length = 2 := by
  unfold byteToHex; split <;> rfl

theorem length_bytesToHex (bs : Bytes) : (bytesToHex bs).length = 2 * bs.length := by
  show ((bs.map byteToHex).flatten).length = 2 * bs.length
  induction bs with
  | nil => rfl
  | cons b t ih =>
    simp only [List.map_cons, List.flatten_cons, List.length_append,
      length_byteToHex, ih, List.length_cons]
    omega

theorem writeAt_append (p c rest : Bytes) :
    writeAt (p ++ (List.replicate c.length 0 ++ rest)) p.length c = p ++ (c ++ rest) := by
  unfold writeAt
  rw [List.take_left]
  have h : p.length + c.length = (p ++ List.replicate c.length 0).length := by
    simp
  rw [← List.append_assoc, h, List.drop_left, List.append_assoc]

theorem combineLoop_eq : ∀ (cs : List Bytes) (p : Bytes),
    combineLoop cs (p ++ List.replicate ((cs.map List.length).sum) 0) p.length
      = p ++ cs.flatten
  | [], p => by simp [combineLoop]
  | c :: cs, p => by
    rw [List.map_cons, List.sum_cons, List.replicate_add]
    simp only [combineLoop]
    rw [writeAt_append p c (List.replicate ((cs.map List.length).sum) 0),
      ← List.append_assoc]
    have hl : p.length + c.length = (p ++ c).length := (List.length_append p c).symm
    rw [hl, combineLoop_eq cs (p ++ c)]
    simp [List.append_assoc]

theorem foldl_len (l : List Bytes) : ∀ a : Nat,
    l.foldl (fun acc c => acc + c.length) a = a + (l.map List.length).sum := by
  induction l with
  | nil => intro a; simp
  | cons c cs ih => intro a; simp only [List.foldl_cons, ih, List.map_cons, List.sum_cons]; omega

theorem totalLen_eq_sum (l : List Bytes) : totalLen l = (l.map List.length).sum := by
  unfold totalLen; rw [foldl_len]; omega

theorem combineChunks_eq_flatten (chunks : List Bytes) :
    combineChunks chunks = chunks.flatten := by
  have h := combineLoop_eq chunks []
  simpa [combineChunks, totalLen_eq_sum] using h

/-- C1: for every byte sequence, the in-memory strategy
(`computeFileHash`) and the streaming strategy
(`computeFileHashStreaming`) produce the identical digest, of 64 hex
characters for the 32-byte SHA-256 output; `chunks` is any chunk
decomposition the file stream yields for the file contents. -/
theorem c1_hash_equivalence (H : Bytes → Bytes) (fileBytes : Bytes)
    (chunks : List Bytes) (hjoin : chunks.flatten = fileBytes)
    (hlen : (H fileBytes).length = 32) :
    computeFileHash H fileBytes = computeFileHashStreaming H chunks ∧
    (computeFileHash H fileBytes).length = 64 := by
  constructor
  · unfold computeFileHash computeFileHashStreaming
    rw [combineChunks_eq_flatten, hjoin]
  · unfold computeFileHash
    rw [length_bytesToHex, hlen]

/-- C1 witness: a concrete three-byte file split into two chunks. -/
theorem c1_witness :
    ([[1], [2, 3]] : List Bytes).flatten = [1, 2, 3] ∧
    (constHash32 [1, 2, 3]).length = 32 ∧
    (computeFileHash constHash32 [1, 2, 3]
        = computeFileHashStreaming constHash32 [[1], [2, 3]] ∧
      (computeFileHash constHash32 [1, 2, 3]).length = 64) :=
  ⟨by decide, by decide,
    c1_hash_equivalence constHash32 [1, 2, 3] [[1], [2, 3]] (by decide) (by decide)⟩

/-! Helper lemmas about the 11 MiB fixture. -/

theorem totalLen_chunks9 : totalLen chunks9 = 11 * CHUNK_SIZE := by
  rw [totalLen_eq_sum]
  simp only [chunks9, List.map_replicate, List.length_replicate,
    List.sum_replicate, smul_eq_mul]

theorem chunks9_big : totalLen chunks9 > LARGE_FILE_THRESHOLD := by
  rw [totalLen_chunks9]
  norm_num [CHUNK_SIZE, LARGE_FILE_THRESHOLD]

/-- C9 counterexample: for a concrete 11 MiB file (over the 10 MiB
threshold) the streaming hasher's combined buffer is exactly the whole
file contents, one contiguous allocation of the full file length — the
whole file IS materialized in memory at once. -/
theorem c9_counterexample :
    totalLen chunks9 > LARGE_FILE_THRESHOLD ∧
    combineChunks chunks9 = chunks9.flatten ∧
    (combineChunks chunks9).length = totalLen chunks9 := by
  refine ⟨chunks9_big, combineChunks_eq_flatten chunks9, ?_⟩
  rw [combineChunks_eq_flatten, List.length_flatten, ← totalLen_eq_sum]

/-- C9 (amended): for every file above the threshold the streaming
hasher does read the file as a sequence of chunks, but it then
concatenates every chunk into one combined buffer equal to the whole
file contents (of length the full file size) and digests that buffer in
a single call — there is no incremental digest accumulator. -/
theorem c9_amended (chunks : List Bytes)
    (_hbig : totalLen chunks > LARGE_FILE_THRESHOLD) :
    combineChunks chunks = chunks.flatten ∧
    (combineChunks chunks).length = totalLen chunks := by
  refine ⟨combineChunks_eq_flatten chunks, ?_⟩
  rw [combineChunks_eq_flatten, List.length_flatten, ← totalLen_eq_sum]

/-- C9 witness: the amended claim at the 11 MiB fixture. -/
theorem c9_witness :
    totalLen chunks9 > LARGE_FILE_THRESHOLD ∧
    (combineChunks chunks9 = chunks9.flatten ∧
      (combineChunks chunks9).length = totalLen chunks9) :=
  ⟨chunks9_big, c9_amended chunks9 chunks9_big⟩

/-- The fingerprint computed inside `uploadFileWithProgress` is the
size-selected hash (`api.ts` 306-311). -/
theorem uploadFileWithProgress_fileHash (H : Bytes → Bytes) (env : UploadEnv)
    (oracle : Nat → StatusResponse) :
    (uploadFileWithProgress H env oracle).fileHash =
      (if env.fileSize > LARGE_FILE_THRESHOLD then computeFileHashStreaming H env.chunks
       else computeFileHash H env.fileBytes) := by
  simp only [uploadFileWithProgress]
  split
  · rfl
  · split
    · rfl
    · split <;> rfl

/-- C10: `checkDuplicate` issues no network request, always reports
`isDuplicate = false`, and returns exactly the fingerprint
`uploadFileWithProgress` computes for the same file — both select the
streaming strategy precisely when the file size exceeds the 10 MiB
threshold and the in-memory strategy otherwise. -/
theorem c10_checkDuplicate_agrees (H : Bytes → Bytes) (env : UploadEnv)
    (oracle : Nat → StatusResponse) :
    (checkDuplicate H env.fileSize env.fileBytes env.chunks).isDuplicate = false ∧
    (checkDuplicate H env.fileSize env.fileBytes env.chunks).fetches = 0 ∧
    (checkDuplicate H env.fileSize env.fileBytes env.chunks).hash =
      (uploadFileWithProgress H env oracle).fileHash ∧
    (checkDuplicate H env.fileSize env.fileBytes env.chunks).hash =
      (if env.fileSize > LARGE_FILE_THRESHOLD then computeFileHashStreaming H env.chunks
       else computeFileHash H env.fileBytes) := by
  refine ⟨rfl, rfl, ?_, rfl⟩
  rw [uploadFileWithProgress_fileHash]
  rfl

/-- C8: when the immediate response is classified duplicate,
`uploadFileWithProgress` issues no status fetch and returns a
`duplicate` result whose message (and hash and prior-upload reference)
is the server-supplied value, unchanged. -/
theorem c8_duplicate_short_circuit (H : Bytes → Bytes) (env : UploadEnv)
    (oracle : Nat → StatusResponse) (hok : env.resp.ok = true)
    (hdup : env.resp.status = strDuplicate) :
    (uploadFileWithProgress H env oracle).statusFetches = 0 ∧
    (uploadFileWithProgress H env oracle).result.status = ResultStatus.duplicate ∧
    (uploadFileWithProgress H env oracle).result.message = env.resp.message ∧
    (uploadFileWithProgress H env oracle).result.fileHash = env.resp.file_hash ∧
    (uploadFileWithProgress H env oracle).result.originalUpload = env.resp.original_upload := by
  simp [uploadFileWithProgress, hok, hdup]

/-- C8 witness: a concrete duplicate response. -/
theorem c8_witness :
    (uploadFileWithProgress emptyHash (mkEnv respDuplicate) oracleNeverDone).statusFetches = 0 ∧
    (uploadFileWithProgress emptyHash (mkEnv respDuplicate) oracleNeverDone).result.status = ResultStatus.duplicate ∧
    (uploadFileWithProgress emptyHash (mkEnv respDuplicate) oracleNeverDone).result.message = (mkEnv respDuplicate).resp.message ∧
    (uploadFileWithProgress emptyHash (mkEnv respDuplicate) oracleNeverDone).result.fileHash = (mkEnv respDuplicate).resp.file_hash ∧
    (uploadFileWithProgress emptyHash (mkEnv respDuplicate) oracleNeverDone).result.originalUpload = (mkEnv respDuplicate).resp.original_upload :=
  c8_duplicate_short_circuit emptyHash (mkEnv respDuplicate) oracleNeverDone
    (by decide) (by decide)

/-- C3: a 401 response to the `/upload/stream` submission triggers NO
`unauthorized` broadcast from `uploadFileWithProgress` — the response
is converted into a generic error result with zero dispatches — while
the shared `request` helper dispatches exactly one `unauthorized` event
for a 401.  This contradicts the claim that the transport fires exactly
one session-expired signal. -/
theorem c3_no_unauthorized_broadcast :
    (uploadFileWithProgress emptyHash (mkEnv resp401) oracleNeverDone).unauthorizedDispatches = 0 ∧
    (uploadFileWithProgress emptyHash (mkEnv resp401) oracleNeverDone).result.status = ResultStatus.error ∧
    (uploadFileWithProgress emptyHash (mkEnv resp401) oracleNeverDone).result.message = "Unauthorized" ∧
    (request httpResp401).unauthorizedDispatches = 1 := by decide

/-- C7: the submission request of `uploadFileWithProgress` carries the
file, the sheet-name field when a sheet name is present, and the
`Authorization` header exactly when a token is available — but NO
anti-forgery header (`csrfHeader = none`), whereas `uploadCampaigns`
attaches the fixed CSRF value to its mutating request. -/
theorem c7_missing_csrf_header :
    (uploadFileWithProgress emptyHash envWithSheetAndToken oracleDone42).request =
      { hasFile := true, sheetField := some "Sheet1",
        authHeader := some "Bearer tok", csrfHeader := none } ∧
    (uploadFileWithProgress emptyHash (mkEnv respAccepted) oracleDone42).request.authHeader = none ∧
    (uploadCampaignsRequest (some "tok")).csrfHeader = some csrfTokenValue := by decide

/-- C2 counterexample: with a status endpoint that never reports a
terminal state, the base pipeline performs its 60 fetches and then
returns an ERROR result with message `Upload timed out` — not a
non-error still-processing outcome. -/
theorem c2_counterexample :
    (uploadFileWithProgress emptyHash (mkEnv respAccepted) oracleNeverDone).statusFetches = 60 ∧
    (uploadFileWithProgress emptyHash (mkEnv respAccepted) oracleNeverDone).result.status = ResultStatus.error ∧
    (uploadFileWithProgress emptyHash (mkEnv respAccepted) oracleNeverDone).result.message = msgTimedOut := by decide

/-- With a never-terminal, always-OK status oracle, the inner polling
loop exhausts its fuel: it throws `Upload timed out` after exactly
`fuel` further fetches. -/
theorem pollLoopAux_nonterminal (oracle : Nat → StatusResponse)
    (hok : ∀ i, (oracle i).ok = true)
    (hnc : ∀ i, (oracle i).status ≠ strCompleted)
    (hnf : ∀ i, (oracle i).status ≠ strFailed)
    (jobId : Option String) :
    ∀ fuel fetches evs,
      (pollLoopAux oracle jobId fuel fetches evs).outcome = Except.error msgTimedOut ∧
      (pollLoopAux oracle jobId fuel fetches evs).fetches = fetches + fuel := by
  intro fuel
  induction fuel with
  | zero => intro f evs; exact ⟨rfl, rfl⟩
  | succ n ih =>
    intro f evs
    simp only [pollLoopAux]
    simp only [hok f, hnc f, hnf f, if_neg, if_false]
    simp only [Bool.true_eq_false, if_false, ite_false, if_neg (hnc f), if_neg (hnf f)]
    refine ⟨(ih (f + 1) _).1, ?_⟩
    rw [(ih (f + 1) _).2]
    omega

/-- With a never-terminal, always-OK status oracle, the page-level
poller counts up to the attempt bound and then resolves with the
warning banner, without setting a result. -/
theorem pollUploadStatusAux_nonterminal (oracle : Nat → StatusResponse)
    (hok : ∀ i, (oracle i).ok = true)
    (hnc : ∀ i, (oracle i).status ≠ strCompleted)
    (hnf : ∀ i, (oracle i).status ≠ strFailed) :
    ∀ fuel attempts0, attempts0 + fuel = maxAttemptsPage → 1 ≤ fuel →
      pollUploadStatusAux oracle fuel attempts0 =
        { resolved := true,
          finalStatus := { type := PageStatusType.warning, message := msgStillProcessing },
          result := none, fetches := maxAttemptsPage } := by
  intro fuel
  induction fuel with
  | zero => intro a0 hsum h1; omega
  | succ n ih =>
    intro a0 hsum h1
    simp only [pollUploadStatusAux]
    simp only [hok a0, Bool.true_eq_false, if_false, ite_false,
      if_neg (hnc a0), if_neg (hnf a0)]
    by_cases hn : n = 0
    · subst hn
      have heq : a0 + 1 = maxAttemptsPage := hsum
      rw [if_pos (le_of_eq heq.symm), heq]
    · have hlt : ¬ maxAttemptsPage ≤ a0 + 1 := by omega
      rw [if_neg hlt]
      exact ih (a0 + 1) (by omega) (by omega)

/-- C2 (amended): with a status endpoint that never returns a terminal
state, the base pipeline performs exactly 60 status fetches and then
stops — but it THROWS `Upload timed out`, which the top-level handler
converts into an error result (not a non-error still-processing
outcome); the page-level `pollUploadStatus` performs exactly 120
fetches and does yield the non-error warning "still processing"
outcome without throwing. -/
theorem c2_amended (H : Bytes → Bytes) (env : UploadEnv)
    (oracle : Nat → StatusResponse)
    (hok : ∀ i, (oracle i).ok = true)
    (hnc : ∀ i, (oracle i).status ≠ strCompleted)
    (hnf : ∀ i, (oracle i).status ≠ strFailed)
    (hresp : env.resp.ok = true) (hdup : env.resp.status ≠ strDuplicate) :
    ((uploadFileWithProgress H env oracle).statusFetches = 60 ∧
     (uploadFileWithProgress H env oracle).result.status = ResultStatus.error ∧
     (uploadFileWithProgress H env oracle).result.message = msgTimedOut) ∧
    ((pollUploadStatus oracle).fetches = 120 ∧
     (pollUploadStatus oracle).resolved = true ∧
     (pollUploadStatus oracle).finalStatus.type = PageStatusType.warning ∧
     (pollUploadStatus oracle).finalStatus.message = msgStillProcessing ∧
     (pollUploadStatus oracle).result = none) := by
  constructor
  · simp only [uploadFileWithProgress, hresp, Bool.true_eq_false, if_false,
      ite_false, if_neg hdup]
    rw [(pollLoopAux_nonterminal oracle hok hnc hnf env.resp.job_id
      maxAttemptsBase 0 _).1,
      (pollLoopAux_nonterminal oracle hok hnc hnf env.resp.job_id
      maxAttemptsBase 0 _).2]
    simp [maxAttemptsBase]
  · have hpage := pollUploadStatusAux_nonterminal oracle hok hnc hnf
      maxAttemptsPage 0 (by omega) (by norm_num [maxAttemptsPage])
    simp only [pollUploadStatus]
    rw [hpage]
    simp [maxAttemptsPage]

/-- C2 witness: the amended claim at a concrete always-running oracle
and a concrete accepted submission. -/
theorem c2_witness :
    ((uploadFileWithProgress emptyHash (mkEnv respAccepted) oracleNeverDone).statusFetches = 60 ∧
     (uploadFileWithProgress emptyHash (mkEnv respAccepted) oracleNeverDone).result.status = ResultStatus.error ∧
     (uploadFileWithProgress emptyHash (mkEnv respAccepted) oracleNeverDone).result.message = msgTimedOut) ∧
    ((pollUploadStatus oracleNeverDone).fetches = 120 ∧
     (pollUploadStatus oracleNeverDone).resolved = true ∧
     (pollUploadStatus oracleNeverDone).finalStatus.type = PageStatusType.warning ∧
     (pollUploadStatus oracleNeverDone).finalStatus.message = msgStillProcessing ∧
     (pollUploadStatus oracleNeverDone).result = none) :=
  c2_amended emptyHash (mkEnv respAccepted) oracleNeverDone
    (fun _ => rfl)
    (fun _ => (by decide : stRunning.status ≠ strCompleted))
    (fun _ => (by decide : stRunning.status ≠ strFailed))
    rfl (by decide)

/-- C4 counterexample: two terminal `completed` payloads that differ in
`row_count` (42 vs 99) and `summary` produce IDENTICAL final results
from the base pipeline — its `StreamUploadResult` carries only the
payload's `file_hash` and `message`, so the result does not include the
row count, summary, schema or preview at all. -/
theorem c4_counterexample :
    stCompleted42.row_count ≠ stCompleted99.row_count ∧
    stCompleted42.summary ≠ stCompleted99.summary ∧
    (uploadFileWithProgress emptyHash (mkEnv respAccepted) oracleDone42).result =
      (uploadFileWithProgress emptyHash (mkEnv respAccepted) oracleDone99).result := by
  decide

/-- C4 (amended): on a `completed` poll the page-level poller's result
relays the terminal payload verbatim — `row_count` (as
`imported_count`, defaulting to 0 when absent), `summary`, `schema` and
`preview` — while the base pipeline's result carries only the payload's
`file_hash` and `message` (its result type has no row-count, summary,
schema or preview fields). -/
theorem c4_amended (st : StatusResponse) (hok : st.ok = true)
    (hc : st.status = strCompleted)
    (H : Bytes → Bytes) (env : UploadEnv)
    (hresp : env.resp.ok = true) (hdup : env.resp.status ≠ strDuplicate) :
    (pollUploadStatus (fun _ => st)).result =
      some { success := true, imported_count := Option.getD st.row_count 0,
             message := st.message, summary := st.summary,
             schema := st.schema, preview := st.preview } ∧
    (uploadFileWithProgress H env (fun _ => st)).result =
      { status := ResultStatus.accepted, jobId := env.resp.job_id,
        fileHash := st.file_hash, message := st.message } := by
  constructor
  · rw [pollUploadStatus, show maxAttemptsPage = 119 + 1 from rfl,
      pollUploadStatusAux]
    simp [hok, hc]
  · simp only [uploadFileWithProgress, hresp, Bool.true_eq_false, if_false,
      ite_false, if_neg hdup]
    rw [show maxAttemptsBase = 59 + 1 from rfl, pollLoopAux]
    simp [hok, hc]

/-- C4 witness: the amended claim at the concrete payload with
`row_count = 42`. -/
theorem c4_witness :
    (pollUploadStatus (fun _ => stCompleted42)).result =
      some { success := true, imported_count := Option.getD stCompleted42.row_count 0,
             message := stCompleted42.message, summary := stCompleted42.summary,
             schema := stCompleted42.schema, preview := stCompleted42.preview } ∧
    (uploadFileWithProgress emptyHash (mkEnv respAccepted) (fun _ => stCompleted42)).result =
      { status := ResultStatus.accepted, jobId := (mkEnv respAccepted).resp.job_id,
        fileHash := stCompleted42.file_hash, message := stCompleted42.message } :=
  c4_amended stCompleted42 rfl rfl emptyHash (mkEnv respAccepted) rfl (by decide)

/-- The polling loop never loses fetches: the final count is at least
the count it started with. -/
theorem pollLoopAux_fetches_lower (oracle : Nat → StatusResponse)
    (jobId : Option String) :
    ∀ fuel fetches evs, fetches ≤ (pollLoopAux oracle jobId fuel fetches evs).fetches := by
  intro fuel
  induction fuel with
  | zero => intro f evs; simp [pollLoopAux]
  | succ n ih =>
    intro f evs
    rw [pollLoopAux]
    split
    · simp
    · split
      · simp
      · split
        · simp
        · exact le_trans (by omega) (ih (f + 1) _)

/-- Once the loop has fuel, at least one status fetch happens. -/
theorem pollLoopAux_fetches_pos (oracle : Nat → StatusResponse)
    (jobId : Option String) (n f : Nat) (evs : List ProgressEvent) :
    f + 1 ≤ (pollLoopAux oracle jobId (n + 1) f evs).fetches := by
  rw [pollLoopAux]
  split
  · simp
  · split
    · simp
    · split
      · simp
      · exact pollLoopAux_fetches_lower oracle jobId n (f + 1) _

/-- C5 (amended): the immediate-response classification actually
implemented.  `uploadFileWithProgress`: a non-OK response is an error
with no fetch; an OK duplicate status short-circuits with no fetch; ANY
other OK response — whether or not it carries an accepted status, a job
id, or synchronous final counts — is treated as an accepted
asynchronous job and polled (at least one status fetch); no synchronous
success outcome exists.  The page-level `handleUpload` classifies in a
different order: the `success` flag first (synchronous success), then
`accepted` with a truthy job id, and anything else — including a
duplicate response — becomes an error with the server message. -/
theorem c5_amended :
    (∀ (H : Bytes → Bytes) (env : UploadEnv) (oracle : Nat → StatusResponse),
      (env.resp.ok = false →
        (uploadFileWithProgress H env oracle).result.status = ResultStatus.error ∧
        (uploadFileWithProgress H env oracle).statusFetches = 0) ∧
      (env.resp.ok = true → env.resp.status = strDuplicate →
        (uploadFileWithProgress H env oracle).result.status = ResultStatus.duplicate ∧
        (uploadFileWithProgress H env oracle).statusFetches = 0) ∧
      (env.resp.ok = true → env.resp.status ≠ strDuplicate →
        1 ≤ (uploadFileWithProgress H env oracle).statusFetches)) ∧
    (∀ resp : UploadResponse,
      (resp.ok = false →
        (handleUpload resp).outcome =
          PageUploadOutcome.errorOutcome (orElseOptStr resp.detail msgUploadFailedPlain)) ∧
      (resp.ok = true → resp.success = true →
        (handleUpload resp).outcome = PageUploadOutcome.syncSuccess resp.imported_count) ∧
      (resp.ok = true → resp.success = false → resp.status = strAccepted →
        jobIdTruthy resp.job_id = true →
        (handleUpload resp).outcome = PageUploadOutcome.startedPolling resp.job_id) ∧
      (resp.ok = true → resp.success = false →
        ¬(resp.status = strAccepted ∧ jobIdTruthy resp.job_id = true) →
        (handleUpload resp).outcome =
          PageUploadOutcome.errorOutcome (orElseStr resp.message msgUploadFailedPlain))) := by
  constructor
  · intro H env oracle
    refine ⟨?_, ?_, ?_⟩
    · intro hko
      simp [uploadFileWithProgress, hko]
    · intro hok hdup
      simp [uploadFileWithProgress, hok, hdup]
    · intro hok hdup
      simp only [uploadFileWithProgress, hok, Bool.true_eq_false, if_false,
        ite_false, if_neg hdup]
      rw [show maxAttemptsBase = 59 + 1 from rfl]
      split
      · simpa using pollLoopAux_fetches_pos oracle env.resp.job_id 59 0 _
      · simpa using pollLoopAux_fetches_pos oracle env.resp.job_id 59 0 _
  · intro resp
    refine ⟨?_, ?_, ?_, ?_⟩
    · intro hko; simp [handleUpload, hko]
    · intro hok hs; simp [handleUpload, hok, hs]
    · intro hok hs hacc hjob
      simp [handleUpload, hok, hs, hacc, hjob]
    · intro hok hs hnot
      simp [handleUpload, hok, hs, hnot]

/-- C5 counterexample: a synchronous-success response (`success: true`
with final counts, no job id, no duplicate status) is classified
`syncSuccess` by the spec's rules, but `uploadFileWithProgress` does
not recognize it: it proceeds to poll (one status fetch here) and ends
in an error — no synchronous-success outcome exists in its result type.
Dually, a duplicate response reaching the page-level `handleUpload` is
classified as a plain error with the server message, not as
`duplicate`. -/
theorem c5_counterexample :
    specClassify respSync = SpecOutcome.syncSuccess ∧
    (uploadFileWithProgress emptyHash (mkEnv respSync) oracleNotOk).result.status = ResultStatus.error ∧
    (uploadFileWithProgress emptyHash (mkEnv respSync) oracleNotOk).statusFetches = 1 ∧
    (uploadFileWithProgress emptyHash (mkEnv respSync) oracleNotOk).result.message = msgStatusCheckFailed ∧
    specClassify respDuplicate = SpecOutcome.duplicate ∧
    (handleUpload respDuplicate).outcome =
      PageUploadOutcome.errorOutcome respDuplicate.message := by
  decide

/-- C5 witness: the amended claim exercised at the synchronous-success
response (polled by the lib, classified `syncSuccess` by the page). -/
theorem c5_witness :
    1 ≤ (uploadFileWithProgress emptyHash (mkEnv respSync) oracleNotOk).statusFetches ∧
    (handleUpload respSync).outcome = PageUploadOutcome.syncSuccess respSync.imported_count :=
  ⟨(c5_amended.1 emptyHash (mkEnv respSync) oracleNotOk).2.2 rfl (by decide),
   (c5_amended.2 respSync).2.1 rfl rfl⟩

theorem mem_of_getLastEq {α : Type} {l : List α} {a : α}
    (h : l.getLast? = some a) : a ∈ l := by
  obtain ⟨hne, rfl⟩ := List.mem_getLast?_eq_getLast h
  exact List.getLast_mem hne

/-- Appending one event preserves within-phase monotonicity when the
new event is compatible with the last one. -/
theorem phaseMono_concat {l : List ProgressEvent} {e : ProgressEvent}
    (hl : PhaseMono l)
    (hlast : ∀ x, l.getLast? = some x → phaseMonoRel x e) :
    PhaseMono (l ++ [e]) := by
  rw [PhaseMono, List.chain'_append]
  refine ⟨hl, List.chain'_singleton e, ?_⟩
  intro x hx y hy
  simp only [List.head?_cons, Option.mem_def, Option.some.injEq] at hy
  subst hy
  exact hlast x hx

/-- The polling loop only ever emits processing and complete events: no
error-phase event comes out of it if none went in. -/
theorem pollLoopAux_no_error (oracle : Nat → StatusResponse) (jobId : Option String) :
    ∀ fuel f evs, (∀ e ∈ evs, e.phase ≠ Phase.error) →
      ∀ e ∈ (pollLoopAux oracle jobId fuel f evs).events, e.phase ≠ Phase.error := by
  intro fuel
  induction fuel with
  | zero => intro f evs h; simpa [pollLoopAux] using h
  | succ n ih =>
    intro f evs h
    rw [pollLoopAux]
    split
    · simpa using h
    · split
      · intro e he
        simp only [List.mem_append, List.mem_singleton] at he
        rcases he with (he | rfl) | rfl
        · exact h e he
        · simp
        · simp
      · split
        · intro e he
          simp only [List.mem_append, List.mem_singleton] at he
          rcases he with he | rfl
          · exact h e he
          · simp
        · refine ih (f + 1) _ ?_
          intro e he
          simp only [List.mem_append, List.mem_singleton] at he
          rcases he with he | rfl
          · exact h e he
          · simp

/-- Core invariant for within-phase monotonicity of the polling loop:
if the events so far are monotone and their last processing event is
below the next poll's scaled progress, and the oracle's scaled progress
is non-decreasing, the whole event sequence stays monotone. -/
theorem pollLoopAux_mono (oracle : Nat → StatusResponse) (jobId : Option String)
    (hmono : ∀ i, roundTimes100 (oracle i).progress ≤
      roundTimes100 (oracle (i + 1)).progress) :
    ∀ fuel f evs, PhaseMono evs →
      (∀ x, evs.getLast? = some x → x.phase = Phase.processing →
        x.progress ≤ roundTimes100 (oracle f).progress) →
      PhaseMono (pollLoopAux oracle jobId fuel f evs).events := by
  intro fuel
  induction fuel with
  | zero => intro f evs hevs _; simpa [pollLoopAux] using hevs
  | succ n ih =>
    intro f evs hevs hlast
    have hstep : PhaseMono (evs ++
        [{ phase := Phase.processing, progress := roundTimes100 (oracle f).progress,
           message := (oracle f).message, jobId := jobId }]) := by
      refine phaseMono_concat hevs ?_
      intro x hx hph
      exact hlast x hx hph
    rw [pollLoopAux]
    split
    · simpa using hevs
    · split
      · refine phaseMono_concat hstep ?_
        intro x hx hph
        rw [List.getLast?_concat] at hx
        obtain rfl : _ = x := by exact Option.some.inj hx
        simp at hph
      · split
        · exact hstep
        · refine ih (f + 1) _ hstep ?_
          intro x hx hph
          rw [List.getLast?_concat] at hx
          obtain rfl : _ = x := by exact Option.some.inj hx
          exact hmono f


theorem preludeEvents_no_error (H : Bytes → Bytes) (env : UploadEnv) :
    ∀ e ∈ preludeEvents H env, e.phase ≠ Phase.error := by
  intro e he
  simp only [preludeEvents, List.mem_append, List.mem_cons,
    List.not_mem_nil, or_false] at he
  rcases he with (rfl | rfl | rfl) | rfl <;> simp

theorem preludeEvents_mono (H : Bytes → Bytes) (env : UploadEnv) :
    PhaseMono (preludeEvents H env) := by
  simp [preludeEvents, PhaseMono, phaseMonoRel, List.chain'_cons,
    List.chain'_singleton]

theorem preludeEvents_getLast (H : Bytes → Bytes) (env : UploadEnv) :
    (preludeEvents H env).getLast? =
      some { phase := Phase.processing, progress := 50,
             message := msgProcessingOnServer, jobId := env.resp.job_id } := by
  rw [preludeEvents, List.getLast?_concat]

/-- C6 (amended): progress is monotonically non-decreasing within a
phase PROVIDED the server-reported scaled progress values are
themselves non-decreasing and start at 50 or above; within the
processing phase the pipeline emits a fixed 50 and then relays
`Math.round(100 * progress)` verbatim, so without those conditions the
sequence can decrease. -/
theorem c6_amended (H : Bytes → Bytes) (env : UploadEnv)
    (oracle : Nat → StatusResponse)
    (hmono : ∀ i, roundTimes100 (oracle i).progress ≤
      roundTimes100 (oracle (i + 1)).progress)
    (h50 : 50 ≤ roundTimes100 (oracle 0).progress) :
    PhaseMono (uploadFileWithProgress H env oracle).events := by
  have hlast0 : ∀ x, (preludeEvents H env).getLast? = some x →
      x.phase = Phase.processing →
      x.progress ≤ roundTimes100 (oracle 0).progress := by
    intro x hx _hph
    rw [preludeEvents_getLast] at hx
    obtain rfl : _ = x := Option.some.inj hx
    exact h50
  have hpoll := pollLoopAux_mono oracle env.resp.job_id hmono
    maxAttemptsBase 0 (preludeEvents H env) (preludeEvents_mono H env) hlast0
  have hnoerr := pollLoopAux_no_error oracle env.resp.job_id
    maxAttemptsBase 0 (preludeEvents H env) (preludeEvents_no_error H env)
  simp only [uploadFileWithProgress]
  split
  · simp [PhaseMono, phaseMonoRel, List.chain'_cons, List.chain'_singleton,
      mkErrorEvent]
  · split
    · simp [PhaseMono, phaseMonoRel, List.chain'_cons, List.chain'_singleton]
    · split
      · exact hpoll
      · refine phaseMono_concat hpoll ?_
        intro x hx hph
        have hx2 := hnoerr x (mem_of_getLastEq hx)
        exact absurd hph (by simpa [mkErrorEvent] using hx2)

/-- C6 counterexample: with a server that reports 10% on the first poll
and then completes, the emitted event sequence contains two consecutive
processing-phase events whose progress DECREASES (the fixed 50 of the
processing kickoff followed by the relayed 10) — progress is not
monotonically non-decreasing within a phase for all sequences of
server-reported progress values. -/
theorem c6_counterexample :
    ¬ PhaseMono (uploadFileWithProgress emptyHash (mkEnv respAccepted) oracleDip).events := by
  decide

/-- C6 witness: the amended claim at a constant oracle that reports
completion at 100%. -/
theorem c6_witness :
    PhaseMono (uploadFileWithProgress emptyHash (mkEnv respAccepted) oracleDone42).events :=
  c6_amended emptyHash (mkEnv respAccepted) oracleDone42
    (fun _ => le_refl _)
    (by decide : (50 : Int) ≤ roundTimes100 stCompleted42.progress)
